import Mathlib

set_option maxRecDepth 8000

/-!
Shallow embedding of the phishing-URL classifier:
feature extraction (src/features.py) and the scoring endpoint (src/app.py).

External effects are turned into explicit parameters:
the whois lookup outcome, the web-traffic rank lookup outcome, the HTTP fetch
outcome, and the current time.  Fallible code (urlparse raising ValueError)
is embedded with Except.
-/

/-! ## Generic string helpers -/

/-- Does the literal occur as a prefix of cs starting at index i. -/
def litAt (cs lit : List Char) (i : Nat) : Bool :=
  lit.isPrefixOf (cs.drop i)

/-- Python substring containment: pat in s. -/
def strContains (s pat : String) : Bool :=
  (List.range (s.toList.length + 1)).any (fun i => litAt s.toList pat.toList i)

/-- Python str.find for a single character with a start position:
index of the first occurrence at position start or later, if any. -/
def findCharFrom (cs : List Char) (c : Char) (start : Nat) : Option Nat :=
  ((List.range cs.length).filter
    (fun i => decide (start ≤ i) && (cs.getD i c == c))).head?

/-- Index of the last occurrence of character c (0 when absent; callers
guard on containment first, mirroring Python str.rfind usage). -/
def lastCharIdx (cs : List Char) (c : Char) : Nat :=
  (((List.range cs.length).filter (fun i => cs.getD i c == c)).getLast?).getD 0

/-- Python str.rfind for a substring: highest index at which pat occurs
in s, or -1 when it does not occur. -/
def rfindSub (s pat : String) : Int :=
  match ((List.range (s.toList.length + 1)).filter
      (fun i => litAt s.toList pat.toList i)).getLast? with
  | some i => (i : Int)
  | Option.none => -1

/-- Python str.split with a one-character separator (all splits in the
source use single characters); structural so it reduces in the kernel. -/
def splitChar (cs : List Char) (c : Char) : List (List Char) :=
  match cs with
  | [] => [[]]
  | a :: rest =>
    if a == c then [] :: splitChar rest c
    else
      match splitChar rest c with
      | h :: t => (a :: h) :: t
      | [] => [[a]]

/-! ## urllib.parse model

urlsplit / urlparse are modelled after CPython's urllib/parse.py:
leading C0-control/space characters are stripped, tab/CR/LF are removed,
an alphabetic scheme followed by a colon is split off and lowercased,
a leading // introduces the netloc (terminated by the first of / ? #),
and a netloc with an unbalanced square bracket raises
ValueError("Invalid IPv6 URL"), embedded here as Except.error.
(The NFKC _checknetloc check and the 3.11+ bracketed-host validation,
which only reject exotic inputs, are not modelled.) -/

structure SplitResult where
  scheme : String
  netloc : String
  path : String
  query : String
  fragment : String
deriving DecidableEq

/-- Characters allowed in a URL scheme (CPython scheme_chars). -/
def schemeChar (c : Char) : Bool :=
  c.isAlpha || c.isDigit || c == '+' || c == '-' || c == '.'

/-- WHATWG C0 control or space characters, stripped from the left of a URL. -/
def c0ControlOrSpace (c : Char) : Bool :=
  c.toNat ≤ 32

/-- CPython _splitnetloc: the netloc runs from start to the first of
/ ? # (or the end of the string). Returns (netloc, rest). -/
def splitnetloc (cs : List Char) (start : Nat) : List Char × List Char :=
  let delim := [findCharFrom cs '/' start, findCharFrom cs '?' start,
    findCharFrom cs '#' start].foldl
      (fun d o => match o with | some i => min d i | Option.none => d) cs.length
  ((cs.drop start).take (delim - start), cs.drop delim)

/-- Split at the first occurrence of c, dropping it (Python s.split(c, 1)
when c is known to occur). -/
def splitFirst (cs : List Char) (c : Char) : List Char × List Char :=
  match findCharFrom cs c 0 with
  | some i => (cs.take i, cs.drop (i + 1))
  | Option.none => (cs, [])

/-- Fragment and query extraction applied to what follows the netloc. -/
def urlsplitTail (scheme netloc rest : List Char) : SplitResult :=
  let fr := if rest.contains '#' then splitFirst rest '#' else (rest, [])
  let qu := if fr.1.contains '?' then splitFirst fr.1 '?' else (fr.1, [])
  ⟨String.mk scheme, String.mk netloc, String.mk qu.1,
    String.mk qu.2, String.mk fr.2⟩

/-- CPython urllib.parse.urlsplit. The only modelled failure is the
ValueError("Invalid IPv6 URL") raised for a netloc containing an
unbalanced square bracket. -/
def urlsplit (url : String) : Except String SplitResult :=
  let cs0 := (url.toList.dropWhile c0ControlOrSpace).filter
    (fun c => c != '\t' && c != '\r' && c != '\n')
  let sr :=
    match findCharFrom cs0 ':' 0 with
    | some i =>
      if 0 < i ∧ (cs0.getD 0 ' ').isAlpha ∧ (cs0.take i).all schemeChar then
        ((cs0.take i).map Char.toLower, cs0.drop (i + 1))
      else ([], cs0)
    | Option.none => ([], cs0)
  if litAt sr.2 ['/', '/'] 0 then
    let nl := splitnetloc sr.2 2
    if (nl.1.contains '[' && !nl.1.contains ']')
        || (nl.1.contains ']' && !nl.1.contains '[') then
      Except.error "Invalid IPv6 URL"
    else
      Except.ok (urlsplitTail sr.1 nl.1 nl.2)
  else
    Except.ok (urlsplitTail sr.1 [] sr.2)

structure ParseResult where
  scheme : String
  netloc : String
  path : String
  params : String
  query : String
  fragment : String
deriving DecidableEq

/-- Schemes for which urlparse separates path parameters. -/
def uses_params : List String :=
  ["", "ftp", "hdl", "prospero", "http", "imap", "https", "shttp", "rtsp",
   "rtspu", "sip", "sips", "mms", "sftp", "tel"]

/-- CPython _splitparams on a path known to contain a semicolon. -/
def splitparams (p : List Char) : List Char × List Char :=
  if p.contains '/' then
    match findCharFrom p ';' (lastCharIdx p '/') with
    | some i => (p.take i, p.drop (i + 1))
    | Option.none => (p, [])
  else
    match findCharFrom p ';' 0 with
    | some i => (p.take i, p.drop (i + 1))
    | Option.none => (p, [])

/-- CPython urllib.parse.urlparse: urlsplit plus path-parameter splitting. -/
def urlparse (url : String) : Except String ParseResult :=
  match urlsplit url with
  | Except.error e => Except.error e
  | Except.ok sp =>
    if uses_params.contains sp.scheme ∧ sp.path.toList.contains ';' then
      let pp := splitparams sp.path.toList
      Except.ok ⟨sp.scheme, sp.netloc, String.mk pp.1, String.mk pp.2,
        sp.query, sp.fragment⟩
    else
      Except.ok ⟨sp.scheme, sp.netloc, sp.path, "", sp.query, sp.fragment⟩

/-! ## ipaddress model

ipaddress.ip_address(s) succeeds exactly when s is a literal IPv4 or IPv6
address.  IPv4: four dot-separated decimal octets, ASCII digits only, at
most three digits, no leading zero, value at most 255.  IPv6: CPython's
_ip_int_from_string structural rules (colon-separated hextets of one to
four hex digits, at most one ::, optional embedded IPv4 in the last part,
optional nonempty zone id after a percent sign). -/

def hexDigit (c : Char) : Bool :=
  c.isDigit || ('a' ≤ c && c ≤ 'f') || ('A' ≤ c && c ≤ 'F')

def digitsToNat (cs : List Char) : Nat :=
  cs.foldl (fun a c => a * 10 + (c.toNat - 48)) 0

/-- CPython _parse_octet: a valid dotted-quad component. -/
def ipv4Octet (cs : List Char) : Bool :=
  cs ≠ [] && cs.all Char.isDigit && cs.length ≤ 3 &&
    !(cs.length > 1 && cs.getD 0 ' ' == '0') && digitsToNat cs ≤ 255

def isIPv4 (s : String) : Bool :=
  let parts := splitChar s.toList '.'
  parts.length == 4 && parts.all ipv4Octet

/-- CPython _parse_hextet: one to four hex digits. -/
def isHextet (cs : List Char) : Bool :=
  cs ≠ [] && cs.length ≤ 4 && cs.all hexDigit

/-- CPython IPv6 _ip_int_from_string structural validation, on the
colon-separated parts (after any embedded IPv4 rewrite). -/
def ipv6Parts (parts : List (List Char)) : Bool :=
  let n := parts.length
  if n < 3 ∨ 9 < n then false
  else
    let internals := (parts.drop 1).dropLast
    if 1 < internals.countP (fun p => p == []) then false
    else
      match internals.findIdx? (fun p => p == []) with
      | some j =>
        let skip := j + 1
        let firstEmpty := parts.getD 0 ['x'] == []
        let lastEmpty := parts.getD (n - 1) ['x'] == []
        let hi := if firstEmpty then skip - 1 else skip
        let lo := if lastEmpty then n - skip - 2 else n - skip - 1
        if firstEmpty ∧ hi ≠ 0 then false
        else if lastEmpty ∧ lo ≠ 0 then false
        else if 7 < hi + lo then false
        else (parts.take hi).all isHextet && (parts.drop (n - lo)).all isHextet
      | Option.none =>
        n == 8 && !(parts.getD 0 [] == []) && !(parts.getD (n - 1) [] == []) &&
          parts.all isHextet

def isIPv6NoZone (s : String) : Bool :=
  let parts := splitChar s.toList ':' 
  match parts.getLast? with
  | Option.none => false
  | some last =>
    if last.contains '.' then
      isIPv4 (String.mk last) && ipv6Parts (parts.dropLast ++ [['0'], ['0']])
    else
      ipv6Parts parts

def isIPv6 (s : String) : Bool :=
  match findCharFrom s.toList '%' 0 with
  | some i =>
    let zone := s.toList.drop (i + 1)
    zone ≠ [] && !zone.contains '%' && isIPv6NoZone (String.mk (s.toList.take i))
  | Option.none => isIPv6NoZone s

/-- ipaddress.ip_address accepts the string as IPv4 or IPv6. -/
def is_ip_address (s : String) : Bool :=
  isIPv4 s || isIPv6 s

/-! ## Address bar features (src/features.py) -/

/-- havingIP: tries ipaddress.ip_address on the whole url string, 1 on
success, 0 when the constructor raises. -/
def havingIP (url : String) : Int :=
  if is_ip_address url then 1 else 0

/-- haveAtSign: presence of the at sign anywhere in the url. -/
def haveAtSign (url : String) : Int :=
  if strContains url "@" then 1 else 0

/-- getLength: 1 when the url has at least 54 characters. -/
def getLength (url : String) : Int :=
  if 54 ≤ url.length then 1 else 0

/-- getDepth: number of nonempty segments of urlparse(url).path split
on slashes.  Propagates the ValueError urlparse may raise. -/
def getDepth (url : String) : Except String Int :=
  match urlparse url with
  | Except.error e => Except.error e
  | Except.ok pr =>
    Except.ok (((splitChar pr.path.toList '/').countP
      (fun part => 0 < part.length) : Nat) : Int)

/-- redirection: 1 when the last occurrence of a double slash starts
after index 6. -/
def redirection (url : String) : Int :=
  if 6 < rfindSub url "//" then 1 else 0

/-- httpDomain: 1 when the substring https occurs in the netloc.
Propagates the ValueError urlparse may raise. -/
def httpDomain (url : String) : Except String Int :=
  match urlparse url with
  | Except.error e => Except.error e
  | Except.ok pr => Except.ok (if strContains pr.netloc "https" then 1 else 0)

/-- The fixed shortening-service alternation, as literal substrings
(the regex escapes its dots and contains no other metacharacters). -/
def shortening_services : List String :=
  ["bit.ly", "goo.gl", "shorte.st", "x.co", "ow.ly", "t.co", "tinyurl",
   "is.gd", "cli.gs", "tr.im", "j.mp", "u.to", "qr.ae", "po.st", "bc.vc",
   "cutt.us", "yourls.org", "prettylinkpro.com", "v.gd", "link.zip.net"]

/-- tinyURL: re.search of the alternation succeeds exactly when one of
the literal patterns occurs as a substring. -/
def tinyURL (url : String) : Int :=
  if shortening_services.any (fun p => strContains url p) then 1 else 0

/-- prefixSuffix: 1 when a hyphen occurs in the netloc.  Propagates the
ValueError urlparse may raise. -/
def prefixSuffix (url : String) : Except String Int :=
  match urlparse url with
  | Except.error e => Except.error e
  | Except.ok pr => Except.ok (if pr.netloc.toList.contains '-' then 1 else 0)

/-! ## Domain based features

web_traffic wraps an external rank lookup; the outcome is a parameter
(none models any exception in the quoting, request or parsing, which the
bare except turns into 1).

The whois record is modelled with datetimes on a linear timeline counted
in seconds (Python datetimes have sub-day resolution; timedelta.days
floors), matching the value shapes the code dispatches on: None, a
datetime, a string, or a list of datetimes. -/

def web_traffic (rank : Option Int) : Int :=
  match rank with
  | some r => if r < 100000 then 1 else 0
  | Option.none => 1

inductive WhoisField where
  | nil
  | dt (secs : Int)
  | strv (s : String)
  | listv (ds : List Int)
deriving DecidableEq

structure DomainRecord where
  creation_date : WhoisField
  expiration_date : WhoisField
deriving DecidableEq

/-- Python isinstance(x, str). -/
def WhoisField.isStr : WhoisField → Bool
  | .strv _ => true
  | _ => false

/-- Python falsiness of a whois field value (None, empty list, empty
string are falsy; datetimes are always truthy). -/
def WhoisField.isFalsy : WhoisField → Bool
  | .nil => true
  | .listv [] => true
  | .strv s => s.length == 0
  | _ => false

/-- Taking the value as a datetime, after the list normalization that
keeps the first element of a multi-valued field. -/
def WhoisField.firstDt : WhoisField → Option Int
  | .dt t => some t
  | .listv (t :: _) => some t
  | _ => Option.none

/-! Calendar arithmetic for datetime.strptime(s, "%Y-%m-%d"). -/

def isLeap (y : Nat) : Bool :=
  (y % 4 == 0 && y % 100 != 0) || y % 400 == 0

def daysInMonth (y m : Nat) : Nat :=
  if m == 2 then (if isLeap y then 29 else 28)
  else if m == 4 || m == 6 || m == 9 || m == 11 then 30
  else 31

/-- Proleptic Gregorian ordinal of a date, as in datetime.toordinal. -/
def toOrdinal (y m d : Nat) : Nat :=
  let dby := 365 * (y - 1) + (y - 1) / 4 - (y - 1) / 100 + (y - 1) / 400
  let dbm :=
    match m with
    | 1 => 0 | 2 => 31 | 3 => 59 | 4 => 90 | 5 => 120 | 6 => 151
    | 7 => 181 | 8 => 212 | 9 => 243 | 10 => 273 | 11 => 304 | _ => 334
  dby + dbm + (if 2 < m ∧ isLeap y then 1 else 0) + d

/-- Seconds-since-base timestamp of a whole date. -/
def dateSecs (y m d : Nat) : Int :=
  ((toOrdinal y m d : Nat) : Int) * 86400

/-- Day part: two digits matching 3[01]|[12]0-9|00-9 or one digit 1-9,
then end of input; the datetime constructor also checks the day against
the month length and the year against MINYEAR. -/
def parseDayEnd (y m : Nat) (cs : List Char) : Option Int :=
  let mk := fun (d : Nat) =>
    if 1 ≤ y ∧ 1 ≤ d ∧ d ≤ daysInMonth y m then some (dateSecs y m d)
    else Option.none
  match cs with
  | [a, b] =>
    if a.isDigit && b.isDigit then
      let d := digitsToNat [a, b]
      if 1 ≤ d ∧ d ≤ 31 then mk d else Option.none
    else Option.none
  | [a] =>
    if a.isDigit && a != '0' then mk (digitsToNat [a]) else Option.none
  | _ => Option.none

/-- Month part followed by a dash and the day: two digits matching
1[0-2]|0[1-9] (else backtrack to one digit 1-9, which then fails on the
required dash). -/
def parseMonthRest (y : Nat) (cs : List Char) : Option Int :=
  match cs with
  | a :: b :: rest =>
    if a.isDigit && b.isDigit then
      let m := digitsToNat [a, b]
      if 1 ≤ m ∧ m ≤ 12 then
        match rest with
        | '-' :: rest2 => parseDayEnd y m rest2
        | _ => Option.none
      else Option.none
    else if a.isDigit && a != '0' then
      match b :: rest with
      | '-' :: rest2 => parseDayEnd y (digitsToNat [a]) rest2
      | _ => Option.none
    else Option.none
  | _ => Option.none

/-- datetime.strptime(s, "%Y-%m-%d"): four-digit year, dash, month,
dash, day, end of input; none models the ValueError. -/
def parseYMD (s : String) : Option Int :=
  match s.toList with
  | y1 :: y2 :: y3 :: y4 :: '-' :: rest =>
    if y1.isDigit && y2.isDigit && y3.isDigit && y4.isDigit then
      parseMonthRest (digitsToNat [y1, y2, y3, y4]) rest
    else Option.none
  | _ => Option.none

/-- Result of strptime(str(x), "%Y-%m-%d") in the string branch: only a
string field can parse (str of None, of a datetime, or of a list never
matches the format, a datetime rendering always carrying a time part). -/
def WhoisField.strParse : WhoisField → Option Int
  | .strv s => parseYMD s
  | _ => Option.none

/-- timedelta.days of a difference of timestamps: floor division. -/
def tdDays (diff : Int) : Int :=
  Int.fdiv diff 86400

/-- domainAge: 1 when abs((expiration - creation).days)/30 < 6, with the
string, falsiness and list normalizations of the source; 1 on any
failure (the bare except). -/
def domainAge (dn : DomainRecord) : Int :=
  if dn.creation_date.isStr || dn.expiration_date.isStr then
    match dn.creation_date.strParse, dn.expiration_date.strParse with
    | some cs, some es => if (tdDays (es - cs)).natAbs < 180 then 1 else 0
    | _, _ => 1
  else if dn.creation_date.isFalsy || dn.expiration_date.isFalsy then 1
  else
    match dn.creation_date.firstDt, dn.expiration_date.firstDt with
    | some cs, some es => if (tdDays (es - cs)).natAbs < 180 then 1 else 0
    | _, _ => 1

/-- domainEnd: 0 when abs((expiration - now).days)/30 < 6, else 1, with
the same normalizations; 1 on any failure. -/
def domainEnd (dn : DomainRecord) (now : Int) : Int :=
  if dn.expiration_date.isStr then
    match dn.expiration_date.strParse with
    | some es => if (tdDays (es - now)).natAbs < 180 then 0 else 1
    | Option.none => 1
  else if dn.expiration_date.isFalsy then 1
  else
    match dn.expiration_date.firstDt with
    | some es => if (tdDays (es - now)).natAbs < 180 then 0 else 1
    | Option.none => 1

/-- domainAge applied to the possibly-absent record: on None the
attribute access raises and the except returns 1. -/
def domainAgeOpt (w : Option DomainRecord) : Int :=
  match w with
  | some dn => domainAge dn
  | Option.none => 1

def domainEndOpt (w : Option DomainRecord) (now : Int) : Int :=
  match w with
  | some dn => domainEnd dn now
  | Option.none => 1

/-! ## HTML and JavaScript features

A fetched response carries its body text and the redirect chain
(requests history).  The absent fetch (the empty-string sentinel bound
when requests.get raises) is modelled as Option.none. -/

structure Response where
  text : String
  history : List String
deriving DecidableEq

/-- Character class of the regex in iframe: every single character
occurring between the brackets of "[<iframe>|<frameBorder>]". -/
def iframeClassChars : List Char :=
  ['<', 'i', 'f', 'r', 'a', 'm', 'e', '>', '|', 'B', 'o', 'd']

/-- iframe: 1 on the absent sentinel; otherwise 0 when
re.findall("[<iframe>|<frameBorder>]", text) is nonempty, which holds
exactly when the text contains any character of the class, else 1. -/
def iframe (r : Option Response) : Int :=
  match r with
  | Option.none => 1
  | some resp =>
    if resp.text.toList.any (fun c => iframeClassChars.contains c) then 0 else 1

/-- Existence of a match of the regex <script>.+onmouseover.+</script>
(dot does not match a newline, each gap is nonempty). -/
def mouseOverMatch (text : String) : Bool :=
  let cs := text.toList
  let n := cs.length
  (List.range (n + 1)).any (fun i =>
    litAt cs "<script>".toList i &&
    (List.range (n + 1)).any (fun j =>
      decide (i + 8 < j) && litAt cs "onmouseover".toList j &&
        ((cs.drop (i + 8)).take (j - (i + 8))).all (fun c => c != '\n') &&
        (List.range (n + 1)).any (fun k =>
          decide (j + 11 < k) && litAt cs "</script>".toList k &&
            ((cs.drop (j + 11)).take (k - (j + 11))).all (fun c => c != '\n'))))

/-- mouseOver: 1 on the absent sentinel; otherwise 1 when the script
pattern matches, else 0. -/
def mouseOver (r : Option Response) : Int :=
  match r with
  | Option.none => 1
  | some resp => if mouseOverMatch resp.text then 1 else 0

/-- Existence of a match of the regex event.button ?== ?2 (the dot
matches any character but a newline; the spaces are optional). -/
def rightClickMatch (text : String) : Bool :=
  let cs := text.toList
  (List.range (cs.length + 1)).any (fun i =>
    litAt cs "event".toList i &&
    (cs.getD (i + 5) '\n') != '\n' &&
    litAt cs "button".toList (i + 6) &&
    (["==2", "== 2", " ==2", " == 2"].any
      (fun pat => litAt cs pat.toList (i + 12))))

/-- rightClick: 1 on the absent sentinel; otherwise 0 when the
event-button pattern matches, else 1. -/
def rightClick (r : Option Response) : Int :=
  match r with
  | Option.none => 1
  | some resp => if rightClickMatch resp.text then 0 else 1

/-- forwarding: 1 on the absent sentinel; otherwise 0 when the redirect
chain has length at most 2, else 1. -/
def forwarding (r : Option Response) : Int :=
  match r with
  | Option.none => 1
  | some resp => if resp.history.length ≤ 2 then 0 else 1

/-! ## Feature extraction orchestrator -/

/-- dns flag: 0 when whois.whois returned a record, 1 when it raised
(the except branch, which also binds the record to None). -/
def dnsFlag (w : Option DomainRecord) : Int :=
  match w with
  | some _ => 0
  | Option.none => 1

/-- featureExtraction(url).  External outcomes are parameters: w is the
whois lookup result (none when it raised), rank the web-traffic lookup,
fetched the requests.get result (none when it raised), now the current
time.  The lexical detectors getDepth, httpDomain and prefixSuffix call
urlparse unguarded, so its ValueError propagates. -/
def featureExtraction (url : String) (w : Option DomainRecord)
    (rank : Option Int) (fetched : Option Response) (now : Int) :
    Except String (List Int) :=
  match getDepth url with
  | Except.error e => Except.error e
  | Except.ok f4 =>
    match httpDomain url with
    | Except.error e => Except.error e
    | Except.ok f6 =>
      match prefixSuffix url with
      | Except.error e => Except.error e
      | Except.ok f8 =>
        Except.ok
          [havingIP url, haveAtSign url, getLength url, f4,
           redirection url, f6, tinyURL url, f8,
           dnsFlag w, web_traffic rank,
           (if dnsFlag w = 1 then 1 else domainAgeOpt w),
           (if dnsFlag w = 1 then 1 else domainEndOpt w now),
           iframe fetched, mouseOver fetched, rightClick fetched,
           forwarding fetched]

/-- Feature names listed at the bottom of src/features.py. -/
def feature_names : List String :=
  ["Have_IP", "Have_At", "URL_Length", "URL_Depth", "Redirection",
   "https_Domain", "TinyURL", "Prefix/Suffix", "DNS_Record",
   "Web_Traffic", "Domain_Age", "Domain_End",
   "iFrame", "Mouse_Over", "Right_Click", "Web_Forwards"]

/-! ## Scoring endpoint (src/app.py)

phishing_score = sum(features) / len(features); the Python floats are
exact here (an integer divided by 16), so the rationals are a faithful
model.  The response maps generated keys, not feature_names. -/

def phishingScore (features : List Int) : ℚ :=
  (features.sum : ℚ) / (features.length : ℚ)

def isPhishing (features : List Int) : Bool :=
  decide (1 / 2 < phishingScore features)

/-- The features object of the JSON response: feature_i+1 keys in list
order, as built by the dict comprehension in predict. -/
def featuresMap (features : List Int) : List (String × Int) :=
  features.enum.map (fun p => ("feature_" ++ toString (p.1 + 1), p.2))

/-- Decidable form of: every element of the list is 0 or 1. -/
def binaryList (l : List Int) : Bool :=
  l.all (fun x => x == 0 || x == 1)

/-- Success test for an embedded fallible computation. -/
def exceptOk {ε α : Type} : Except ε α → Bool
  | Except.ok _ => true
  | Except.error _ => false

deriving instance DecidableEq for Except

/-! ## Helper lemmas -/

theorem int01_beq {x : Int} (h : x = 0 ∨ x = 1) : (x == 0 || x == 1) = true := by
  rcases h with rfl | rfl <;> rfl

theorem ite01 (p : Prop) [Decidable p] :
    (if p then (1 : Int) else 0) = 0 ∨ (if p then (1 : Int) else 0) = 1 := by
  split <;> simp

theorem ite10 (p : Prop) [Decidable p] :
    (if p then (0 : Int) else 1) = 0 ∨ (if p then (0 : Int) else 1) = 1 := by
  split <;> simp

theorem ite_or01 (p : Prop) [Decidable p] {a b : Int}
    (ha : a = 0 ∨ a = 1) (hb : b = 0 ∨ b = 1) :
    (if p then a else b) = 0 ∨ (if p then a else b) = 1 := by
  split
  · exact ha
  · exact hb

theorem havingIP_01 (url : String) : havingIP url = 0 ∨ havingIP url = 1 := by
  unfold havingIP; exact ite01 _

theorem haveAtSign_01 (url : String) : haveAtSign url = 0 ∨ haveAtSign url = 1 := by
  unfold haveAtSign; exact ite01 _

theorem getLength_01 (url : String) : getLength url = 0 ∨ getLength url = 1 := by
  unfold getLength; exact ite01 _

theorem redirection_01 (url : String) : redirection url = 0 ∨ redirection url = 1 := by
  unfold redirection; exact ite01 _

theorem tinyURL_01 (url : String) : tinyURL url = 0 ∨ tinyURL url = 1 := by
  unfold tinyURL; exact ite01 _

theorem dnsFlag_01 (w : Option DomainRecord) : dnsFlag w = 0 ∨ dnsFlag w = 1 := by
  cases w <;> simp [dnsFlag]

theorem web_traffic_01 (rank : Option Int) :
    web_traffic rank = 0 ∨ web_traffic rank = 1 := by
  cases rank with
  | none => right; rfl
  | some r => unfold web_traffic; exact ite01 _

theorem domainAge_01 (dn : DomainRecord) : domainAge dn = 0 ∨ domainAge dn = 1 := by
  unfold domainAge
  split
  · split
    · exact ite01 _
    · right; rfl
  · split
    · right; rfl
    · split
      · exact ite01 _
      · right; rfl

theorem domainEnd_01 (dn : DomainRecord) (now : Int) :
    domainEnd dn now = 0 ∨ domainEnd dn now = 1 := by
  unfold domainEnd
  split
  · split
    · exact ite10 _
    · right; rfl
  · split
    · right; rfl
    · split
      · exact ite10 _
      · right; rfl

theorem domainAgeOpt_01 (w : Option DomainRecord) :
    domainAgeOpt w = 0 ∨ domainAgeOpt w = 1 := by
  cases w with
  | none => right; rfl
  | some dn => exact domainAge_01 dn

theorem domainEndOpt_01 (w : Option DomainRecord) (now : Int) :
    domainEndOpt w now = 0 ∨ domainEndOpt w now = 1 := by
  cases w with
  | none => right; rfl
  | some dn => exact domainEnd_01 dn now

theorem iframe_01 (r : Option Response) : iframe r = 0 ∨ iframe r = 1 := by
  cases r with
  | none => right; rfl
  | some resp => unfold iframe; exact ite10 _

theorem mouseOver_01 (r : Option Response) : mouseOver r = 0 ∨ mouseOver r = 1 := by
  cases r with
  | none => right; rfl
  | some resp => unfold mouseOver; exact ite01 _

theorem rightClick_01 (r : Option Response) : rightClick r = 0 ∨ rightClick r = 1 := by
  cases r with
  | none => right; rfl
  | some resp => unfold rightClick; exact ite10 _

theorem forwarding_01 (r : Option Response) : forwarding r = 0 ∨ forwarding r = 1 := by
  cases r with
  | none => right; rfl
  | some resp => unfold forwarding; exact ite10 _

/-- timedelta day-count bound in terms of the raw second difference. -/
theorem natAbs_tdDays_lt (x : Int) :
    (tdDays x).natAbs < 180 ↔ -179 * 86400 ≤ x ∧ x < 180 * 86400 := by
  unfold tdDays
  rw [Int.fdiv_eq_ediv x (by norm_num : (0 : Int) ≤ 86400)]
  omega

/-- On a urlparse failure, featureExtraction propagates the error raised
inside getDepth, the first detector to call urlparse. -/
theorem featureExtraction_err (url : String) (w : Option DomainRecord)
    (rank : Option Int) (fetched : Option Response) (now : Int) (e : String)
    (h1 : urlparse url = Except.error e) :
    featureExtraction url w rank fetched now = Except.error e := by
  unfold featureExtraction getDepth
  rw [h1]

/-- On a urlparse success, featureExtraction returns the explicit
16-element vector. -/
theorem featureExtraction_ok (url : String) (w : Option DomainRecord)
    (rank : Option Int) (fetched : Option Response) (now : Int) (pr : ParseResult)
    (h1 : urlparse url = Except.ok pr) :
    featureExtraction url w rank fetched now = Except.ok
      [havingIP url, haveAtSign url, getLength url,
       (((splitChar pr.path.toList '/').countP
         (fun part => 0 < part.length) : Nat) : Int),
       redirection url, (if strContains pr.netloc "https" then 1 else 0),
       tinyURL url, (if pr.netloc.toList.contains '-' then 1 else 0),
       dnsFlag w, web_traffic rank,
       (if dnsFlag w = 1 then 1 else domainAgeOpt w),
       (if dnsFlag w = 1 then 1 else domainEndOpt w now),
       iframe fetched, mouseOver fetched, rightClick fetched,
       forwarding fetched] := by
  unfold featureExtraction getDepth httpDomain prefixSuffix
  rw [h1]

/-! ## Claim theorems -/

/-- C1 counterexample: featureExtraction("http://a.com/x/y") succeeds and
returns a 16-element vector whose fourth element, URL_Depth, is 2, so the
vector is not composed of 0/1 values only, refuting the claim that every
element (and in particular URL_Depth) is binary. -/
theorem C1_depth_not_binary_counterexample :
    featureExtraction "http://a.com/x/y" Option.none Option.none Option.none 0
      = Except.ok [0, 0, 0, 2, 0, 0, 0, 0, 1, 1, 1, 1, 1, 1, 1, 1]
    ∧ binaryList [0, 0, 0, 2, 0, 0, 0, 0, 1, 1, 1, 1, 1, 1, 1, 1] = false :=
  ⟨by decide, by decide⟩

/-- C1 amended: whenever featureExtraction succeeds, the vector has
exactly 16 elements; the fourth (URL_Depth, from getDepth) is a
nonnegative path-segment count that need not be 0 or 1, and the other
fifteen elements are each 0 or 1. -/
theorem C1_extract_shape_amended (url : String) (w : Option DomainRecord)
    (rank : Option Int) (fetched : Option Response) (now : Int) (v : List Int)
    (h : featureExtraction url w rank fetched now = Except.ok v) :
    v.length = 16 ∧ 0 ≤ v.getD 3 0 ∧ binaryList (v.take 3 ++ v.drop 4) = true := by
  cases h1 : urlparse url with
  | error e =>
    rw [featureExtraction_err url w rank fetched now e h1] at h
    exact absurd h (by simp)
  | ok pr =>
    rw [featureExtraction_ok url w rank fetched now pr h1] at h
    injection h with hv
    subst hv
    refine ⟨rfl, ?_, ?_⟩
    · show (0 : Int) ≤
        (((splitChar pr.path.toList '/').countP
          (fun part => 0 < part.length) : Nat) : Int)
      exact Int.natCast_nonneg _
    · show binaryList [havingIP url, haveAtSign url, getLength url,
        redirection url, (if strContains pr.netloc "https" then 1 else 0),
        tinyURL url, (if pr.netloc.toList.contains '-' then 1 else 0),
        dnsFlag w, web_traffic rank,
        (if dnsFlag w = 1 then 1 else domainAgeOpt w),
        (if dnsFlag w = 1 then 1 else domainEndOpt w now),
        iframe fetched, mouseOver fetched, rightClick fetched,
        forwarding fetched] = true
      simp only [binaryList, List.all_cons, List.all_nil, Bool.and_eq_true,
        Bool.and_true]
      exact ⟨int01_beq (havingIP_01 url), int01_beq (haveAtSign_01 url),
        int01_beq (getLength_01 url), int01_beq (redirection_01 url),
        int01_beq (ite01 _), int01_beq (tinyURL_01 url), int01_beq (ite01 _),
        int01_beq (dnsFlag_01 w), int01_beq (web_traffic_01 rank),
        int01_beq (ite_or01 _ (Or.inr rfl) (domainAgeOpt_01 w)),
        int01_beq (ite_or01 _ (Or.inr rfl) (domainEndOpt_01 w now)),
        int01_beq (iframe_01 fetched), int01_beq (mouseOver_01 fetched),
        int01_beq (rightClick_01 fetched), int01_beq (forwarding_01 fetched)⟩

/-- C1 witness: the amended statement instantiated at the concrete
extraction of http://a.com/x/y. -/
theorem C1_extract_shape_witness :
    ([0, 0, 0, 2, 0, 0, 0, 0, 1, 1, 1, 1, 1, 1, 1, 1] : List Int).length = 16
    ∧ 0 ≤ ([0, 0, 0, 2, 0, 0, 0, 0, 1, 1, 1, 1, 1, 1, 1, 1] : List Int).getD 3 0
    ∧ binaryList
        (([0, 0, 0, 2, 0, 0, 0, 0, 1, 1, 1, 1, 1, 1, 1, 1] : List Int).take 3
          ++ ([0, 0, 0, 2, 0, 0, 0, 0, 1, 1, 1, 1, 1, 1, 1, 1] : List Int).drop 4)
        = true :=
  C1_extract_shape_amended "http://a.com/x/y" Option.none Option.none Option.none 0
    [0, 0, 0, 2, 0, 0, 0, 0, 1, 1, 1, 1, 1, 1, 1, 1] (by decide)

/-- C2 counterexample: on the malformed URL "http://[" urlparse raises
ValueError("Invalid IPv6 URL") inside getDepth, and featureExtraction
propagates it instead of returning a vector, refuting the claim that the
lexical detectors and featureExtraction never raise. -/
theorem C2_extract_raises_counterexample :
    featureExtraction "http://[" Option.none Option.none Option.none 0
      = Except.error "Invalid IPv6 URL"
    ∧ getDepth "http://[" = Except.error "Invalid IPv6 URL" :=
  ⟨by decide, by decide⟩

/-- C2 amended: featureExtraction returns a complete vector exactly for
the URLs urlparse accepts; for URLs urlparse rejects (unbalanced square
bracket in the authority) the unguarded detectors propagate the parsing
exception. -/
theorem C2_extract_ok_iff_urlparse_ok (url : String) (w : Option DomainRecord)
    (rank : Option Int) (fetched : Option Response) (now : Int) :
    exceptOk (featureExtraction url w rank fetched now) = exceptOk (urlparse url) := by
  cases h1 : urlparse url with
  | error e =>
    rw [featureExtraction_err url w rank fetched now e h1]
    rfl
  | ok pr =>
    rw [featureExtraction_ok url w rank fetched now pr h1]
    rfl

/-- C3 counterexample: a fetched response with a redirect chain of
length 3 (exceeding 2) makes forwarding return 1, not 0 as claimed, and
a chain of length 0 makes it return 0, not 1. -/
theorem C3_forwarding_polarity_counterexample :
    forwarding (some ⟨"", ["a", "b", "c"]⟩) = 1
    ∧ forwarding (some ⟨"", []⟩) = 0 :=
  ⟨rfl, rfl⟩

/-- C3 amended: for a fetched response, forwarding returns 1 exactly when
the redirect chain length exceeds 2 and 0 exactly when it is at most 2;
on an absent fetch it returns 1. -/
theorem C3_forwarding_amended (resp : Response) :
    (forwarding (some resp) = 1 ↔ 2 < resp.history.length)
    ∧ (forwarding (some resp) = 0 ↔ resp.history.length ≤ 2)
    ∧ forwarding Option.none = 1 := by
  refine ⟨?_, ?_, rfl⟩ <;>
  · show (if resp.history.length ≤ 2 then (0 : Int) else 1) = _ ↔ _
    split_ifs with h2 <;> omega

/-- C4 code bug: havingIP applies ipaddress.ip_address to the whole URL
string, so the documented example URL whose host is the literal IPv4
address 125.98.3.114 yields 0, while the bare address yields 1. -/
theorem C4_havingIP_whole_url_eval :
    havingIP "http://125.98.3.114/index.html" = 0
    ∧ is_ip_address "125.98.3.114" = true
    ∧ havingIP "125.98.3.114" = 1 :=
  ⟨by decide, by decide, by decide⟩

/-- C5: in every successful extraction the DNS_Record element (position
9) is 1 exactly when the whois lookup failed and 0 when a record was
resolved, and on failure Domain_Age (position 11) and Domain_End
(position 12) both take their unavailable default 1. -/
theorem C5_whois_defaults (url : String) (w : Option DomainRecord)
    (rank : Option Int) (fetched : Option Response) (now : Int) (v : List Int)
    (h : featureExtraction url w rank fetched now = Except.ok v) :
    v.getD 8 2 = (if w.isSome then 0 else 1)
    ∧ (w = Option.none → v.getD 10 2 = 1 ∧ v.getD 11 2 = 1) := by
  cases h1 : urlparse url with
  | error e =>
    rw [featureExtraction_err url w rank fetched now e h1] at h
    exact absurd h (by simp)
  | ok pr =>
    rw [featureExtraction_ok url w rank fetched now pr h1] at h
    injection h with hv
    subst hv
    constructor
    · cases w <;> rfl
    · intro hw
      subst hw
      exact ⟨rfl, rfl⟩

/-- C5 witness: the whois-failure defaults on a concrete extraction. -/
theorem C5_whois_defaults_witness :
    ([0, 0, 0, 0, 0, 0, 0, 0, 1, 1, 1, 1, 1, 1, 1, 1] : List Int).getD 8 2
      = (if (Option.none : Option DomainRecord).isSome then 0 else 1)
    ∧ ((Option.none : Option DomainRecord) = Option.none →
        ([0, 0, 0, 0, 0, 0, 0, 0, 1, 1, 1, 1, 1, 1, 1, 1] : List Int).getD 10 2 = 1
        ∧ ([0, 0, 0, 0, 0, 0, 0, 0, 1, 1, 1, 1, 1, 1, 1, 1] : List Int).getD 11 2 = 1) :=
  C5_whois_defaults "http://c.org" Option.none Option.none Option.none 0
    [0, 0, 0, 0, 0, 0, 0, 0, 1, 1, 1, 1, 1, 1, 1, 1] (by decide)

/-- C6: on an absent content fetch all four content detectors return 1,
despite their differing polarities. -/
theorem C6_absent_content_defaults :
    iframe Option.none = 1 ∧ mouseOver Option.none = 1
    ∧ rightClick Option.none = 1 ∧ forwarding Option.none = 1 :=
  ⟨rfl, rfl, rfl, rfl⟩

/-- C7: for every 16-element feature vector the probability is the
arithmetic mean (sum divided by 16), the verdict holds exactly when the
sum exceeds 8 (probability strictly above one half), and the all-zero,
all-one and exactly-eight-ones vectors give probability 0, 1 and 1/2
with verdicts false, true and false. -/
theorem C7_score_mean_verdict (fs : List Int) (h : fs.length = 16) :
    (phishingScore fs = (fs.sum : ℚ) / 16
      ∧ (isPhishing fs = true ↔ 8 < fs.sum))
    ∧ phishingScore (List.replicate 16 (0 : Int)) = 0
    ∧ isPhishing (List.replicate 16 (0 : Int)) = false
    ∧ phishingScore (List.replicate 16 (1 : Int)) = 1
    ∧ isPhishing (List.replicate 16 (1 : Int)) = true
    ∧ phishingScore (List.replicate 8 (1 : Int) ++ List.replicate 8 (0 : Int)) = 1 / 2
    ∧ isPhishing (List.replicate 8 (1 : Int) ++ List.replicate 8 (0 : Int)) = false := by
  have hs : phishingScore fs = (fs.sum : ℚ) / 16 := by
    unfold phishingScore
    rw [h]
    norm_num
  have r0 : phishingScore (List.replicate 16 (0 : Int)) = 0 := by
    norm_num [phishingScore, List.sum_replicate]
  have r1 : phishingScore (List.replicate 16 (1 : Int)) = 1 := by
    norm_num [phishingScore, List.sum_replicate]
  have rh : phishingScore (List.replicate 8 (1 : Int) ++ List.replicate 8 (0 : Int))
      = 1 / 2 := by
    norm_num [phishingScore, List.sum_replicate]
  refine ⟨⟨hs, ?_⟩, r0, ?_, r1, ?_, rh, ?_⟩
  · unfold isPhishing
    rw [decide_eq_true_eq, hs, lt_div_iff₀ (by norm_num : (0 : ℚ) < 16)]
    constructor
    · intro hx
      have h8 : (8 : ℚ) < (fs.sum : ℚ) := by linarith
      exact_mod_cast h8
    · intro hx
      have h8 : (8 : ℚ) < (fs.sum : ℚ) := by exact_mod_cast hx
      linarith
  · simp only [isPhishing, decide_eq_false_iff_not]
    rw [r0]
    norm_num
  · simp only [isPhishing, decide_eq_true_eq]
    rw [r1]
    norm_num
  · simp only [isPhishing, decide_eq_false_iff_not]
    rw [rh]
    norm_num

/-- C7 witness: the mean/verdict statement instantiated at the all-zero
16-element vector. -/
theorem C7_score_mean_verdict_witness :
    (List.replicate 16 (0 : Int)).length = 16
    ∧ ((phishingScore (List.replicate 16 (0 : Int))
          = ((List.replicate 16 (0 : Int)).sum : ℚ) / 16
        ∧ (isPhishing (List.replicate 16 (0 : Int)) = true
            ↔ 8 < (List.replicate 16 (0 : Int)).sum))
      ∧ phishingScore (List.replicate 16 (0 : Int)) = 0
      ∧ isPhishing (List.replicate 16 (0 : Int)) = false
      ∧ phishingScore (List.replicate 16 (1 : Int)) = 1
      ∧ isPhishing (List.replicate 16 (1 : Int)) = true
      ∧ phishingScore (List.replicate 8 (1 : Int) ++ List.replicate 8 (0 : Int)) = 1 / 2
      ∧ isPhishing (List.replicate 8 (1 : Int) ++ List.replicate 8 (0 : Int)) = false) :=
  ⟨by decide, C7_score_mean_verdict (List.replicate 16 (0 : Int)) (by decide)⟩

/-- C8 counterexample: a record whose expiration lies 179.5 days before
its creation (so the absolute span, 15508800 seconds, is below 180 days)
makes domainAge return 0 where the claim requires 1, and an expiration
179.5 days before now makes domainEnd return 1 where the claim requires
0: timedelta.days floors, so the code sees 180 days. -/
theorem C8_day_floor_counterexample :
    domainAge ⟨WhoisField.dt 0, WhoisField.dt (-15508800)⟩ = 0
    ∧ domainEnd ⟨WhoisField.dt 0, WhoisField.dt (-15508800)⟩ 0 = 1
    ∧ (15508800 : ℚ) / 86400 < 180 :=
  ⟨by decide, by decide, by norm_num⟩

/-- C8 amended: for single datetime dates, domainAge is 1 exactly when
the floored day difference has absolute value below 180, that is when
expiration minus creation lies in the interval from -179 days
(inclusive) to 180 days (exclusive); a 90-day span gives 1.  domainEnd
is 0 exactly when expiration minus now lies in the same interval, and 1
otherwise; an expiration 90 days ahead gives 0.  The two detectors keep
their opposite polarities. -/
theorem C8_domain_age_end_amended (c e now : Int) :
    (domainAge ⟨WhoisField.dt c, WhoisField.dt e⟩ = 1
      ↔ -179 * 86400 ≤ e - c ∧ e - c < 180 * 86400)
    ∧ domainAge ⟨WhoisField.dt c, WhoisField.dt (c + 90 * 86400)⟩ = 1
    ∧ (domainEnd ⟨WhoisField.dt c, WhoisField.dt e⟩ now = 0
      ↔ -179 * 86400 ≤ e - now ∧ e - now < 180 * 86400)
    ∧ domainEnd ⟨WhoisField.dt c, WhoisField.dt (now + 90 * 86400)⟩ now = 0 := by
  have key1 : ∀ x : Int, ((if (tdDays x).natAbs < 180 then (1 : Int) else 0) = 1
      ↔ -179 * 86400 ≤ x ∧ x < 180 * 86400) := by
    intro x
    rw [← natAbs_tdDays_lt x]
    split_ifs with h2 <;> simp [h2]
  have key0 : ∀ x : Int, ((if (tdDays x).natAbs < 180 then (0 : Int) else 1) = 0
      ↔ -179 * 86400 ≤ x ∧ x < 180 * 86400) := by
    intro x
    rw [← natAbs_tdDays_lt x]
    split_ifs with h2 <;> simp [h2]
  refine ⟨key1 (e - c), ?_, key0 (e - now), ?_⟩
  · show (if (tdDays (c + 90 * 86400 - c)).natAbs < 180 then (1 : Int) else 0) = 1
    exact (key1 (c + 90 * 86400 - c)).mpr (by omega)
  · show (if (tdDays (now + 90 * 86400 - now)).natAbs < 180 then (0 : Int) else 1) = 0
    exact (key0 (now + 90 * 86400 - now)).mpr (by omega)

/-- C9 counterexample: a successful classification of http://a.com
produces a features object keyed feature_1 through feature_16, which is
not the canonical name list of section 6, refuting the claim that the
response maps the canonical names. -/
theorem C9_feature_keys_counterexample :
    Except.map (fun v => (featuresMap v).map Prod.fst)
        (featureExtraction "http://a.com" Option.none Option.none Option.none 0)
      = Except.ok ["feature_1", "feature_2", "feature_3", "feature_4",
        "feature_5", "feature_6", "feature_7", "feature_8", "feature_9",
        "feature_10", "feature_11", "feature_12", "feature_13", "feature_14",
        "feature_15", "feature_16"]
    ∧ (["feature_1", "feature_2", "feature_3", "feature_4", "feature_5",
        "feature_6", "feature_7", "feature_8", "feature_9", "feature_10",
        "feature_11", "feature_12", "feature_13", "feature_14", "feature_15",
        "feature_16"] : List String) ≠ feature_names :=
  ⟨by decide, by decide⟩

/-- C9 amended: the features object keys every value by its position,
feature_1 through feature_n in list order (so values are preserved in
canonical order), instead of the canonical feature names, which appear
only in the unused feature_names list. -/
theorem C9_feature_keys_amended (features : List Int) :
    (featuresMap features).map Prod.fst
      = (List.range features.length).map (fun i => "feature_" ++ toString (i + 1))
    ∧ (featuresMap features).map Prod.snd = features := by
  constructor
  · calc (featuresMap features).map Prod.fst
        = features.enum.map (fun p => "feature_" ++ toString (p.1 + 1)) := by
          unfold featuresMap
          rw [List.map_map]
          rfl
      _ = (features.enum.map Prod.fst).map (fun i => "feature_" ++ toString (i + 1)) := by
          rw [List.map_map]
          rfl
      _ = (List.range features.length).map (fun i => "feature_" ++ toString (i + 1)) := by
          rw [List.enum_map_fst]
  · calc (featuresMap features).map Prod.snd
        = features.enum.map Prod.snd := by
          unfold featuresMap
          rw [List.map_map]
          rfl
      _ = features := List.enum_map_snd features

/-- C10 counterexample: the body consisting of the single character F
contains a character of the claimed set (which wrongly includes the
uppercase F absent from the regex class), yet iframe returns 1, not 0. -/
theorem C10_iframe_class_counterexample :
    iframe (some ⟨"F", []⟩) = 1
    ∧ ("F".toList.any (fun c =>
        (['<', 'i', 'f', 'r', 'a', 'm', 'e', '>', '|', 'F', 'B', 'o', 'd']
          : List Char).contains c)) = true :=
  ⟨by decide, by decide⟩

/-- C10 amended: for a fetched response, iframe returns 0 exactly when
the body contains at least one character of the actual class of the
pattern, the set containing the angle brackets, bar, lowercase i f r a m
e o d and uppercase B (no uppercase F); in particular the body "a",
which contains no iframe or frameBorder markup, yields 0. -/
theorem C10_iframe_class_amended (resp : Response) :
    (iframe (some resp) = 0
      ↔ resp.text.toList.any (fun c => iframeClassChars.contains c) = true)
    ∧ strContains "a" "iframe" = false
    ∧ strContains "a" "frameBorder" = false
    ∧ iframe (some ⟨"a", []⟩) = 0 := by
  refine ⟨?_, by decide, by decide, by decide⟩
  show (if resp.text.toList.any (fun c => iframeClassChars.contains c)
      then (0 : Int) else 1) = 0 ↔ _
  split_ifs with h2
  · exact iff_of_true rfl h2
  · exact iff_of_false (by norm_num) h2
